import Mathlib

/-!
Shallow embedding of the reference-range evaluation and pattern-detection
engine of the blood-analysis repository (source files
`smart_biochemistry_system.py` and `blood_analysis_app.py`), together with
theorems checking the natural-language specification against it.

Conventions used throughout:

* Python floats are modelled as `ℚ`; decimal constants are written with
  `qv a b = a / b` (via `Rat.divInt`) so that proofs can evaluate them.
* A Python value that may be `None` is an `Option`; Python's `x < y`
  raising `TypeError` when an operand is `None` is modelled by `pyLt`
  returning `Except String Bool`.
* Python dicts keyed by strings are association lists `List (String × _)`;
  key-presence (`k in d`) is `(d.lookup k).isSome` and subscripting is
  `(d.lookup k).getD none` at option-valued entries.
* `datetime` timestamps are modelled as natural numbers; only their
  ordering is relevant to the embedded code.
* The namespace `Smart` holds the embedding of
  `smart_biochemistry_system.py`, the namespace `BloodApp` the embedding
  of `blood_analysis_app.py`; record sorting, which is textually identical
  in the two files, sits at top level.
-/

/-- Rational constant `a / b`, used for the decimal literals of the source. -/
def qv (a : ℤ) (b : ℤ) : ℚ := Rat.divInt a b

/-- Python truthiness of an optional string: `None` and `""` are falsy. -/
def strTruthy : Option String → Bool
  | none => false
  | some s => !s.isEmpty

/-- Python truthiness of an optional number: `None` and `0` are falsy. -/
def numTruthy : Option ℚ → Bool
  | none => false
  | some q => decide (q ≠ 0)

/-- Python comparison `a < b` where either operand may be `None`:
comparing `None` with a number raises `TypeError`. -/
def pyLt : Option ℚ → Option ℚ → Except String Bool
  | some a, some b => .ok (decide (a < b))
  | _, _ => .error "TypeError"

/-- Python comparison `a > b` with possibly missing operands. -/
def pyGt (a b : Option ℚ) : Except String Bool := pyLt b a

namespace Smart

/-- One entry of `NORMAL_RANGES` in `smart_biochemistry_system.py`
(lines 34–60): generic `min`/`max`, unit, the `gender_specific` flag with
the optional `male`/`female` ranges, and the optional
`critical_low`/`critical_high` bounds. -/
structure ParamDef where
  min : ℚ
  max : ℚ
  unit : String
  gender_specific : Bool
  male : Option (ℚ × ℚ)
  female : Option (ℚ × ℚ)
  critical_low : Option ℚ
  critical_high : Option ℚ
deriving Repr, DecidableEq

/-- The `NORMAL_RANGES` table of `smart_biochemistry_system.py`. -/
def NORMAL_RANGES : List (String × ParamDef) := [
  ("Гемоглобин (Hb)", ⟨120, 160, "г/л", true, some (130, 160), some (120, 150), some 70, some 200⟩),
  ("Эритроциты (RBC)", ⟨4, qv 11 2, "×10¹²/л", true, some (qv 43 10, qv 57 10), some (qv 19 5, qv 51 10), some 2, some 7⟩),
  ("Лейкоциты (WBC)", ⟨4, 9, "×10⁹/л", false, none, none, some 1, some 30⟩),
  ("Тромбоциты (PLT)", ⟨180, 320, "×10⁹/л", false, none, none, some 50, some 1000⟩),
  ("Гематокрит (HCT)", ⟨36, 48, "%", true, some (39, 49), some (35, 45), some 20, some 60⟩),
  ("СОЭ", ⟨2, 15, "мм/ч", true, some (2, 10), some (2, 15), some 0, some 100⟩),
  ("Глюкоза", ⟨qv 39 10, qv 59 10, "ммоль/л", false, none, none, some (qv 5 2), some 25⟩),
  ("Креатинин", ⟨62, 106, "мкмоль/л", true, some (80, 115), some (53, 97), some 30, some 500⟩),
  ("Мочевина", ⟨qv 5 2, qv 83 10, "ммоль/л", false, none, none, some 1, some 50⟩),
  ("Билирубин общий", ⟨qv 17 5, qv 41 2, "мкмоль/л", false, none, none, some 0, some 200⟩),
  ("АЛТ", ⟨10, 40, "Ед/л", true, some (10, 41), some (7, 31), some 0, some 500⟩),
  ("АСТ", ⟨10, 40, "Ед/л", true, some (10, 40), some (10, 32), some 0, some 500⟩),
  ("Холестерин общий", ⟨3, qv 26 5, "ммоль/л", false, none, none, some 1, some 10⟩),
  ("Белок общий", ⟨65, 85, "г/л", false, none, none, some 40, some 120⟩),
  ("Альбумин", ⟨35, 50, "г/л", false, none, none, some 20, some 70⟩),
  ("ЛДГ", ⟨125, 220, "Ед/л", false, none, none, some 50, some 1000⟩),
  ("Щелочная фосфатаза", ⟨40, 130, "Ед/л", true, some (40, 130), some (35, 105), some 10, some 500⟩)]

/-- One entry of `CORRELATION_PATTERNS` (lines 63–89): the ordered
indicator list, the combination-predicate discriminant string and the
severity label. -/
structure PatternInfo where
  indicators : List String
  pattern : String
  severity : String
deriving Repr, DecidableEq

/-- The `CORRELATION_PATTERNS` table of `smart_biochemistry_system.py`. -/
def CORRELATION_PATTERNS : List (String × PatternInfo) := [
  ("Анемия", ⟨["Гемоглобин (Hb)", "Эритроциты (RBC)", "Гематокрит (HCT)"], "all_low", "high"⟩),
  ("Воспаление", ⟨["Лейкоциты (WBC)", "СОЭ"], "both_high", "medium"⟩),
  ("Печеночная недостаточность", ⟨["АЛТ", "АСТ", "Билирубин общий"], "all_high", "critical"⟩),
  ("Почечная недостаточность", ⟨["Креатинин", "Мочевина"], "both_high", "critical"⟩),
  ("Сахарный диабет", ⟨["Глюкоза"], "high", "high"⟩)]

/-- `get_normal_range` of `smart_biochemistry_system.py` (lines 91–107):
returns the 5-tuple `(min, max, critical_low, critical_high, unit)`, with
all-`None` bounds and empty unit for a parameter outside the catalog, and
the gender range when the parameter is gender specific and a truthy gender
is supplied (`'Мужской'` selects the male range, any other truthy string
the female one).  In the source a gender-specific entry without a
`male`/`female` key would raise `KeyError`; every gender-specific entry of
`NORMAL_RANGES` carries both, so the `getD` default below is unreachable. -/
def get_normal_range (param_name : String) (gender : Option String) :
    Option ℚ × Option ℚ × Option ℚ × Option ℚ × String :=
  match NORMAL_RANGES.lookup param_name with
  | none => (none, none, none, none, "")
  | some param =>
    if param.gender_specific && strTruthy gender then
      if gender == some "Мужской" then
        (some (param.male.getD (0, 0)).1, some (param.male.getD (0, 0)).2,
          param.critical_low, param.critical_high, param.unit)
      else
        (some (param.female.getD (0, 0)).1, some (param.female.getD (0, 0)).2,
          param.critical_low, param.critical_high, param.unit)
    else
      (some param.min, some param.max, param.critical_low, param.critical_high, param.unit)

/-- The comparison chain of `check_abnormal` (lines 115–121) once the range
tuple has been fetched: the critical bounds first — with the
short-circuiting `or` of `value < crit_low or value > crit_high` — then
`value < min_val`, then `value > max_val`, else normal.  Each comparison
raises `TypeError` when an operand is `None`. -/
def classifyCore (value : Option ℚ) (mn : ℚ) (mx cl ch : Option ℚ) :
    Except String (Option (String × String)) :=
  match pyLt value cl with
  | .error e => .error e
  | .ok true => .ok (some ("critical", "critical"))
  | .ok false =>
    match pyGt value ch with
    | .error e => .error e
    | .ok true => .ok (some ("critical", "critical"))
    | .ok false =>
      match pyLt value (some mn) with
      | .error e => .error e
      | .ok true => .ok (some ("low", "abnormal"))
      | .ok false =>
        match pyGt value mx with
        | .error e => .error e
        | .ok true => .ok (some ("high", "abnormal"))
        | .ok false => .ok (some ("normal", "normal"))

/-- `check_abnormal` of `smart_biochemistry_system.py` (lines 109–121):
`(None, None)` — here `.ok none` — when the parameter has no resolvable
range (it is outside the catalog), otherwise the `classifyCore` chain.
The `value` operand is kept optional because `detect_patterns` passes raw
result-set entries, which may be `None`; Python then raises `TypeError`
inside the first comparison. -/
def check_abnormal (value : Option ℚ) (param_name : String) (gender : Option String) :
    Except String (Option (String × String)) :=
  match get_normal_range param_name gender with
  | (none, _, _, _, _) => .ok none
  | (some mn, mx, cl, ch, _) => classifyCore value mn mx cl ch

/-- A detected pattern as appended by `detect_patterns` (lines 149–155):
name, severity, indicator list, the indicator values and the per-indicator
first component of `check_abnormal`. -/
structure DetectedPattern where
  name : String
  severity : String
  indicators : List String
  values : List (String × Option ℚ)
  statuses : List (String × Option String)
deriving Repr, DecidableEq

/-- The `statuses` dict comprehension of `detect_patterns` (lines 135–136):
for each indicator, `check_abnormal(values[ind], ind, patient_gender)[0]`,
evaluated left to right so that the first `TypeError` aborts. -/
def ruleStatuses (analysis_data : List (String × Option ℚ)) (gender : Option String) :
    List String → Except String (List (String × Option String))
  | [] => .ok []
  | ind :: rest =>
    match check_abnormal ((analysis_data.lookup ind).getD none) ind gender with
    | .error e => .error e
    | .ok r =>
      match ruleStatuses analysis_data gender rest with
      | .error e => .error e
      | .ok tl => .ok ((ind, r.map Prod.fst) :: tl)

/-- The `match` decision of `detect_patterns` (lines 138–146).  For the
`'high'` discriminant the source reads `statuses[indicators[0]]`; since
`statuses` is built over `indicators` in order and no rule repeats an
indicator, that is the head of the status list. -/
def ruleMatch (pattern : String) (statuses : List (String × Option String)) : Bool :=
  if pattern == "all_low" then statuses.all (fun s => s.2 == some "low")
  else if pattern == "all_high" then statuses.all (fun s => s.2 == some "high")
  else if pattern == "both_high" then
    statuses.all (fun s => s.2 == some "high" || s.2 == some "critical")
  else if pattern == "high" then
    match statuses.head? with
    | some s => s.2 == some "high" || s.2 == some "critical"
    | none => false
  else false

/-- One iteration of the rule loop of `detect_patterns` (lines 127–155):
`.ok none` when the rule is skipped (an indicator key is absent) or does
not match, `.ok (some _)` when a `DetectedPattern` is appended, `.error`
when classifying an indicator raises. -/
def evalRule (analysis_data : List (String × Option ℚ)) (patient_gender : Option String)
    (rule : String × PatternInfo) : Except String (Option DetectedPattern) :=
  if rule.2.indicators.all (fun ind => (analysis_data.lookup ind).isSome) then
    match ruleStatuses analysis_data patient_gender rule.2.indicators with
    | .error e => .error e
    | .ok statuses =>
      if ruleMatch rule.2.pattern statuses then
        .ok (some ⟨rule.1, rule.2.severity, rule.2.indicators,
          rule.2.indicators.map (fun ind => (ind, (analysis_data.lookup ind).getD none)),
          statuses⟩)
      else .ok none
  else .ok none

/-- The rule loop of `detect_patterns` over an explicit rule list,
accumulating matches in rule order. -/
def detect_go (analysis_data : List (String × Option ℚ)) (patient_gender : Option String) :
    List (String × PatternInfo) → Except String (List DetectedPattern)
  | [] => .ok []
  | r :: rest =>
    match evalRule analysis_data patient_gender r with
    | .error e => .error e
    | .ok m? =>
      match detect_go analysis_data patient_gender rest with
      | .error e => .error e
      | .ok ms => .ok (match m? with | some m => m :: ms | none => ms)

/-- `detect_patterns` of `smart_biochemistry_system.py` (lines 123–157). -/
def detect_patterns (analysis_data : List (String × Option ℚ)) (patient_gender : Option String) :
    Except String (List DetectedPattern) :=
  detect_go analysis_data patient_gender CORRELATION_PATTERNS

/-- The `missing` list of `validate_data_quality` (line 165): the selected
parameters that are absent from the result set or have a `None` value. -/
def missing_params (analysis_data : List (String × Option ℚ)) (selected_params : List String) :
    List String :=
  selected_params.filter (fun p =>
    match analysis_data.lookup p with
    | none => true
    | some none => true
    | some (some _) => false)

/-- The plausibility loop of `validate_data_quality` (lines 170–176): for
every non-`None` entry, warn when the value is below a tenth of a truthy
`critical_low` or above ten times a truthy `critical_high`.  Note the
lookup passes no gender, and that Python's `and` makes `crit_low == 0` (or
`None`) suppress the check. -/
def plausibility_warnings (analysis_data : List (String × Option ℚ)) : List String :=
  analysis_data.flatMap (fun pv =>
    match pv.2 with
    | none => []
    | some value =>
      match get_normal_range pv.1 none with
      | (_, _, cl, ch, _) =>
        (if numTruthy cl && decide (value < cl.getD 0 * qv 1 10) then
          ["⚠️ " ++ pv.1 ++ ": значение " ++ toString value ++ " подозрительно низкое"]
        else []) ++
        (if numTruthy ch && decide (value > ch.getD 0 * 10) then
          ["⚠️ " ++ pv.1 ++ ": значение " ++ toString value ++ " подозрительно высокое"]
        else []))

/-- The haemoglobin/haematocrit consistency check of `validate_data_quality`
(lines 179–185): when both keys are present and both values truthy, the
quotient `hb / (hct / 3)` (or `0` when `hct ≤ 0`) must lie in
`[0.25, 0.35]`, else one warning is appended. -/
def hb_hct_warning (analysis_data : List (String × Option ℚ)) : List String :=
  match analysis_data.lookup "Гемоглобин (Hb)", analysis_data.lookup "Гематокрит (HCT)" with
  | some hb?, some hct? =>
    if numTruthy hb? && numTruthy hct? then
      let hb := hb?.getD 0
      let hct := hct?.getD 0
      let frac := if hct > 0 then hb / (hct / 3) else 0
      if frac < qv 1 4 || frac > qv 7 20 then
        ["⚠️ Необычное соотношение Гемоглобин/Гематокрит"]
      else []
    else []
  | _, _ => []

/-- `validate_data_quality` of `smart_biochemistry_system.py`
(lines 159–187): returns `(errors, warnings)`; all missing required
parameters produce a single aggregated error message, and the warnings are
computed from the result set alone. -/
def validate_data_quality (analysis_data : List (String × Option ℚ))
    (selected_params : List String) : List String × List String :=
  let missing := missing_params analysis_data selected_params
  let errors := if missing.isEmpty then [] else
    ["Отсутствуют значения для параметров: " ++ String.intercalate ", " missing]
  (errors, plausibility_warnings analysis_data ++ hb_hct_warning analysis_data)

/-- One entry of the `trends` dict of `calculate_trends` (lines 202–208). -/
structure TrendEntry where
  current : ℚ
  previous : ℚ
  change : ℚ
  change_percent : ℚ
  direction : String
deriving Repr, DecidableEq

/-- The body of the parameter loop of `calculate_trends` for one parameter:
the singleton entry when the parameter is present in both sets with truthy
(non-`None`, non-zero) values, else nothing.  Note the Python guard
`if current and previous:` uses truthiness, so a zero value on either side
skips the parameter and `previous` is never `0` in the percentage. -/
def trend_for (current_data previous_data : List (String × Option ℚ)) (param : String) :
    List (String × TrendEntry) :=
  match current_data.lookup param, previous_data.lookup param with
  | some current?, some previous? =>
    if numTruthy current? && numTruthy previous? then
      let current := current?.getD 0
      let previous := previous?.getD 0
      let change := current - previous
      let change_percent := if previous ≠ 0 then change / previous * 100 else 0
      [(param, ⟨current, previous, change, change_percent,
        if change > 0 then "up" else if change < 0 then "down" else "stable"⟩)]
    else []
  | _, _ => []

/-- `calculate_trends` of `smart_biochemistry_system.py` (lines 189–210),
as the association list built in `selected_params` order. -/
def calculate_trends (current_data previous_data : List (String × Option ℚ)) :
    List String → List (String × TrendEntry)
  | [] => []
  | param :: rest =>
    trend_for current_data previous_data param ++
      calculate_trends current_data previous_data rest

/-- One row of the table built by `create_status_table` (lines 851–883):
parameter, raw value, the resolved normal range with its unit (`none`
renders the source's `'N/A'`, chosen by Python truthiness of `min_val`)
and the status text. -/
structure StatusRow where
  param : String
  value : ℚ
  norma : Option (ℚ × ℚ × String)
  status_text : String
deriving Repr, DecidableEq

/-- `create_status_table` of `smart_biochemistry_system.py`
(lines 851–883), keeping the rows as structured data: a row per selected
parameter present with a non-`None` value; `severity == 'critical'` wins,
then high, then low, and **everything else — including the `None` status
of an unknown parameter — renders as `'✅ Норма'`**. -/
def create_status_table (analysis_data : List (String × Option ℚ))
    (selected_params : List String) (patient_gender : Option String) :
    Except String (List StatusRow) :=
  match selected_params with
  | [] => .ok []
  | param :: rest =>
    match analysis_data.lookup param with
    | some (some value) =>
      match get_normal_range param patient_gender with
      | (mn, mx, _, _, unit) =>
        match check_abnormal (some value) param patient_gender with
        | .error e => .error e
        | .ok r =>
          let status := r.map Prod.fst
          let severity := r.map Prod.snd
          let stext := if severity == some "critical" then "🚨 КРИТИЧНО"
            else if status == some "high" then "🔴 Повышен"
            else if status == some "low" then "🔵 Понижен"
            else "✅ Норма"
          let norma := if numTruthy mn then some (mn.getD 0, mx.getD 0, unit) else none
          match create_status_table analysis_data rest patient_gender with
          | .error e => .error e
          | .ok tl => .ok (⟨param, value, norma, stext⟩ :: tl)
    | _ => create_status_table analysis_data rest patient_gender

end Smart

namespace BloodApp

/-- One entry of `NORMAL_RANGES` in `blood_analysis_app.py` (lines 45–61):
as in the smart variant but without critical bounds. -/
structure ParamDef where
  min : ℚ
  max : ℚ
  unit : String
  gender_specific : Bool
  male : Option (ℚ × ℚ)
  female : Option (ℚ × ℚ)
deriving Repr, DecidableEq

/-- The `NORMAL_RANGES` table of `blood_analysis_app.py`. -/
def NORMAL_RANGES : List (String × ParamDef) := [
  ("Гемоглобин (Hb)", ⟨120, 160, "г/л", true, some (130, 160), some (120, 150)⟩),
  ("Эритроциты (RBC)", ⟨4, qv 11 2, "×10¹²/л", true, some (qv 43 10, qv 57 10), some (qv 19 5, qv 51 10)⟩),
  ("Лейкоциты (WBC)", ⟨4, 9, "×10⁹/л", false, none, none⟩),
  ("Тромбоциты (PLT)", ⟨180, 320, "×10⁹/л", false, none, none⟩),
  ("Гематокрит (HCT)", ⟨36, 48, "%", true, some (39, 49), some (35, 45)⟩),
  ("СОЭ", ⟨2, 15, "мм/ч", true, some (2, 10), some (2, 15)⟩),
  ("Глюкоза", ⟨qv 39 10, qv 59 10, "ммоль/л", false, none, none⟩),
  ("Креатинин", ⟨62, 106, "мкмоль/л", true, some (80, 115), some (53, 97)⟩),
  ("Мочевина", ⟨qv 5 2, qv 83 10, "ммоль/л", false, none, none⟩),
  ("Билирубин общий", ⟨qv 17 5, qv 41 2, "мкмоль/л", false, none, none⟩),
  ("АЛТ", ⟨10, 40, "Ед/л", true, some (10, 41), some (7, 31)⟩),
  ("АСТ", ⟨10, 40, "Ед/л", true, some (10, 40), some (10, 32)⟩),
  ("Холестерин общий", ⟨3, qv 26 5, "ммоль/л", false, none, none⟩),
  ("Белок общий", ⟨65, 85, "г/л", false, none, none⟩),
  ("Альбумин", ⟨35, 50, "г/л", false, none, none⟩)]

/-- `get_normal_range` of `blood_analysis_app.py` (lines 63–77): returns
`(min, max, unit)`, `(None, None, '')` outside the catalog.  As in the
smart variant, the `getD` default models an unreachable `KeyError`. -/
def get_normal_range (param_name : String) (gender : Option String) :
    Option ℚ × Option ℚ × String :=
  match NORMAL_RANGES.lookup param_name with
  | none => (none, none, "")
  | some param =>
    if param.gender_specific && strTruthy gender then
      if gender == some "Мужской" then
        (some (param.male.getD (0, 0)).1, some (param.male.getD (0, 0)).2, param.unit)
      else
        (some (param.female.getD (0, 0)).1, some (param.female.getD (0, 0)).2, param.unit)
    else
      (some param.min, some param.max, param.unit)

/-- `check_abnormal` of `blood_analysis_app.py` (lines 79–89): `None` when
the parameter has no range, else `'low'` / `'high'` / `'normal'` with
inclusive bounds.  The `(some, none)` case cannot arise from
`get_normal_range` (Python would raise `TypeError` comparing with `None`). -/
def check_abnormal (value : ℚ) (param_name : String) (gender : Option String) :
    Option String :=
  match get_normal_range param_name gender with
  | (none, _, _) => none
  | (some mn, some mx, _) =>
    if value < mn then some "low"
    else if value > mx then some "high"
    else some "normal"
  | (some _, none, _) => none

end BloodApp

/-- An analysis record as built by `save_analysis` in both source files:
patient metadata, the result set, the priority string (`'СТАТ'` or
`'Обычный'`), the selected parameter list and a timestamp. -/
structure Analysis where
  patient_id : String
  patient_name : String
  patient_gender : Option String
  patient_age : ℕ
  data : List (String × Option ℚ)
  priority : String
  selected_params : List String
  timestamp : ℕ
deriving Repr, DecidableEq

/-- Stable insertion into an ascending-sorted list: `x` goes in front of
the first element it compares `le` to, so earlier elements stay in front
of equal later ones. -/
def insertAsc {α : Type} (le : α → α → Bool) (x : α) : List α → List α
  | [] => [x]
  | y :: ys => if le x y then x :: y :: ys else y :: insertAsc le x ys

/-- Stable ascending insertion sort, the model of Python's stable
`sorted`. -/
def sortAsc {α : Type} (le : α → α → Bool) : List α → List α
  | [] => []
  | x :: xs => insertAsc le x (sortAsc le xs)

/-- Python's `sorted(l, key=k, reverse=True)`: CPython reverses the list,
stable-sorts ascending and reverses again, which yields a stable
descending sort. -/
def pySortedReverse {α : Type} (le : α → α → Bool) (l : List α) : List α :=
  (sortAsc le l.reverse).reverse

/-- The sort key `(x['priority'] != 'СТАТ', x['timestamp'])` used by
`doctor_interface` (line 400) and `smart_doctor_interface` (line 579). -/
def sortKey (a : Analysis) : Bool × ℕ := (decide (a.priority ≠ "СТАТ"), a.timestamp)

/-- Lexicographic `≤` on the sort key, with `False < True` as on Python
booleans. -/
def keyLE (k1 k2 : Bool × ℕ) : Bool :=
  if k1.1 = k2.1 then decide (k1.2 ≤ k2.2) else k1.1 == false

/-- `sorted_analyses` as computed — identically — in `doctor_interface`
(`blood_analysis_app.py` line 400) and `smart_doctor_interface`
(`smart_biochemistry_system.py` line 579):
`sorted(analyses, key=lambda x: (x['priority'] != 'СТАТ', x['timestamp']), reverse=True)`. -/
def sorted_analyses (analyses : List Analysis) : List Analysis :=
  pySortedReverse (fun a b => keyLE (sortKey a) (sortKey b)) analyses

/-- The record displayed as the patient's current ("latest") analysis in
`smart_doctor_interface` (lines 616–624) and `doctor_interface`
(lines 423–434): the head of the worklist-sorted list filtered to the
patient. -/
def latest_analysis_for (analyses : List Analysis) (pid : String) : Option Analysis :=
  ((sorted_analyses analyses).filter (fun a => a.patient_id == pid)).head?

/-- A record with only the fields relevant to sorting populated. -/
def mkAnalysis (pid : String) (priority : String) (timestamp : ℕ) : Analysis :=
  ⟨pid, "", none, 0, [], priority, [], timestamp⟩

/-- R1 of the spec's worklist example: routine, 10:00. -/
def R1 : Analysis := mkAnalysis "P-001" "Обычный" 600

/-- R2 of the spec's worklist example: urgent, 09:00. -/
def R2 : Analysis := mkAnalysis "P-002" "СТАТ" 540

/-- R3 of the spec's worklist example: urgent, 09:30. -/
def R3 : Analysis := mkAnalysis "P-003" "СТАТ" 570

/-- An urgent record for patient P-007 at time 600. -/
def urgentLate : Analysis := mkAnalysis "P-007" "СТАТ" 600

/-- A routine record for the same patient P-007 at the earlier time 540. -/
def routineEarly : Analysis := mkAnalysis "P-007" "Обычный" 540

/-- A successful association-list lookup yields a member of the list. -/
theorem mem_of_lookup_eq_some {β : Type} {l : List (String × β)} {k : String} {v : β}
    (h : l.lookup k = some v) : (k, v) ∈ l := by
  induction l with
  | nil => simp [List.lookup] at h
  | cons e tl ih =>
    obtain ⟨a, b⟩ := e
    rw [List.lookup] at h
    rcases hk : (k == a) with _ | _
    · rw [hk] at h
      exact List.mem_cons_of_mem _ (ih h)
    · rw [hk] at h
      cases h
      have : k = a := eq_of_beq hk
      subst this
      exact List.mem_cons_self _ _

/-- In a list whose keys are pairwise distinct, two members with the same
key carry the same value. -/
theorem keys_unique {β : Type} {l : List (String × β)}
    (hnd : l.Pairwise (fun a b => a.1 ≠ b.1)) {k : String} {v1 v2 : β}
    (h1 : (k, v1) ∈ l) (h2 : (k, v2) ∈ l) : v1 = v2 := by
  induction l with
  | nil => cases h1
  | cons e tl ih =>
    have hnd' := List.pairwise_cons.mp hnd
    rcases List.mem_cons.mp h1 with h1' | h1' <;> rcases List.mem_cons.mp h2 with h2' | h2'
    · rw [← h2'] at h1'
      injection h1'
    · subst h1'
      exact absurd rfl (hnd'.1 (k, v2) h2')
    · subst h2'
      exact absurd rfl (hnd'.1 (k, v1) h1')
    · exact ih hnd'.2 h1' h2'

/-- Appending past a block whose keys all differ from `p` does not change a
lookup for `p`. -/
theorem lookup_append_of_keys_ne {β : Type} (l1 l2 : List (String × β)) (p : String)
    (h : ∀ x ∈ l1, x.1 ≠ p) : (l1 ++ l2).lookup p = l2.lookup p := by
  induction l1 with
  | nil => rfl
  | cons e tl ih =>
    obtain ⟨a, b⟩ := e
    rw [List.cons_append, List.lookup]
    have hne : (p == a) = false := by
      have := h (a, b) (List.mem_cons_self _ _)
      exact beq_false_of_ne (fun hpa => this hpa.symm)
    rw [hne]
    exact ih (fun x hx => h x (List.mem_cons_of_mem _ hx))

/-- Claim C1: the worklist view is claimed to present records sorted urgent
before routine with descending timestamps within each group, so that
R1(routine, 10:00), R2(urgent, 09:00), R3(urgent, 09:30) appear as
[R3, R2, R1].  Evaluating the embedded sort
`sorted(analyses, key=lambda x: (x['priority'] != 'СТАТ', x['timestamp']), reverse=True)`
at exactly this input shows that `reverse=True` also inverts the priority
key: the routine record R1 comes first and the produced order is
[R1, R3, R2], not [R3, R2, R1]. -/
theorem c1_worklist_order_at_spec_example :
    sorted_analyses [R1, R2, R3] = [R1, R3, R2] ∧
    [R1, R3, R2] ≠ [R3, R2, R1] := by decide

/-- Claim C2: the record selected as a patient's latest analysis is claimed
to be the one with the most recent timestamp.  For patient P-007 with an
urgent record at time 600 and a routine record at the earlier time 540,
the code (head of the worklist-sorted, patient-filtered list) selects the
routine record with the strictly smaller timestamp. -/
theorem c2_latest_analysis_at_failing_input :
    latest_analysis_for [urgentLate, routineEarly] "P-007" = some routineEarly ∧
    routineEarly.timestamp < urgentLate.timestamp := by decide

/-- Claim C3, counterexample: detection is claimed never to raise on a
result set with a null-valued indicator, but on `{'Глюкоза': None}` the
diabetes rule passes the key-presence test and `check_abnormal(None, ...)`
raises `TypeError` inside `value < crit_low`. -/
theorem c3_counterexample :
    Smart.detect_patterns [("Глюкоза", none)] none = .error "TypeError" := by rfl

/-- A rule one of whose indicators is absent (as a key) from the result set
is rejected by the `all(ind in analysis_data ...)` test. -/
theorem Smart.evalRule_absent_indicator (data : List (String × Option ℚ)) (g : Option String)
    (name : String) (info : Smart.PatternInfo)
    (h : ∃ ind ∈ info.indicators, data.lookup ind = none) :
    Smart.evalRule data g (name, info) = .ok none := by
  obtain ⟨ind, hmem, hnone⟩ := h
  have hall : (info.indicators.all (fun i => (data.lookup i).isSome)) = false := by
    rw [Bool.eq_false_iff]
    intro htrue
    have := List.all_eq_true.mp htrue ind hmem
    rw [hnone] at this
    simp at this
  unfold Smart.evalRule
  rw [hall]
  rfl

/-- Claim C3 (amended): a rule with an absent (missing-key) indicator is
skipped entirely — deleting it from the rule list does not change the
result of detection, so it is never partially evaluated, never emitted and
never the source of an error.  (A present but null-valued indicator is
*not* skipped; see the counterexample.) -/
theorem c3_rule_with_absent_indicator_skipped (data : List (String × Option ℚ))
    (g : Option String) (pre post : List (String × Smart.PatternInfo))
    (name : String) (info : Smart.PatternInfo)
    (h : ∃ ind ∈ info.indicators, data.lookup ind = none) :
    Smart.detect_go data g (pre ++ (name, info) :: post) =
      Smart.detect_go data g (pre ++ post) := by
  induction pre with
  | nil =>
    simp only [List.nil_append]
    rw [Smart.detect_go, Smart.evalRule_absent_indicator data g name info h]
    cases Smart.detect_go data g post <;> rfl
  | cons r pre ih =>
    simp only [List.cons_append]
    rw [Smart.detect_go, Smart.detect_go, ih]

/-- Witness for C3: with the result set `{'Глюкоза': 5}` the anaemia rule
has all three indicators absent, and removing it from the front of the
rule list leaves detection unchanged. -/
theorem c3_witness :
    Smart.detect_go [("Глюкоза", some 5)] none
      ([] ++ ("Анемия", ⟨["Гемоглобин (Hb)", "Эритроциты (RBC)", "Гематокрит (HCT)"],
          "all_low", "high"⟩) ::
        [("Воспаление", ⟨["Лейкоциты (WBC)", "СОЭ"], "both_high", "medium"⟩),
         ("Печеночная недостаточность", ⟨["АЛТ", "АСТ", "Билирубин общий"], "all_high", "critical"⟩),
         ("Почечная недостаточность", ⟨["Креатинин", "Мочевина"], "both_high", "critical"⟩),
         ("Сахарный диабет", ⟨["Глюкоза"], "high", "high"⟩)]) =
    Smart.detect_go [("Глюкоза", some 5)] none
      ([] ++
        [("Воспаление", ⟨["Лейкоциты (WBC)", "СОЭ"], "both_high", "medium"⟩),
         ("Печеночная недостаточность", ⟨["АЛТ", "АСТ", "Билирубин общий"], "all_high", "critical"⟩),
         ("Почечная недостаточность", ⟨["Креатинин", "Мочевина"], "both_high", "critical"⟩),
         ("Сахарный диабет", ⟨["Глюкоза"], "high", "high"⟩)]) :=
  c3_rule_with_absent_indicator_skipped _ _ _ _ _ _
    ⟨"Гемоглобин (Hb)", by decide, by rfl⟩

/-- Claim C4, counterexample: a trend entry is claimed for every parameter
present with non-null values in both sets, with percent delta `0` when the
previous value is `0`.  With current value 5 and previous value 0 — both
non-null — the guard `if current and previous:` fails on the falsy `0` and
no entry is emitted at all. -/
theorem c4_counterexample :
    Smart.calculate_trends [("Глюкоза", some 5)] [("Глюкоза", some 0)] ["Глюкоза"] = [] := by
  rfl

/-- Every entry produced by `trend_for` for parameter `q` is keyed `q`. -/
theorem Smart.trend_for_keys (cd pd : List (String × Option ℚ)) (q : String) :
    ∀ x ∈ Smart.trend_for cd pd q, x.1 = q := by
  intro x hx
  unfold Smart.trend_for at hx
  split at hx
  · split at hx
    · simp only [List.mem_singleton] at hx
      rw [hx]
    · cases hx
  · cases hx

/-- Claim C4 (amended): trend entries are emitted exactly for the selected
parameters whose values are truthy (non-null *and* non-zero, by Python
truthiness) in both sets; for such a parameter the entry carries
delta = current − previous, percent delta = delta/previous·100 (the
`previous == 0` branch of the source is unreachable) and direction
up/down/stable by the sign of the delta; in particular
`trend(A, A, params)` gives a stable, all-zero entry for every parameter
with a truthy value in `A`. -/
theorem c4_trend_entry_fields :
    (∀ (cd pd : List (String × Option ℚ)) (params : List String) (p : String) (c pv : ℚ),
      p ∈ params → cd.lookup p = some (some c) → pd.lookup p = some (some pv) →
      c ≠ 0 → pv ≠ 0 →
      (Smart.calculate_trends cd pd params).lookup p =
        some ⟨c, pv, c - pv, (c - pv) / pv * 100,
          if c - pv > 0 then "up" else if c - pv < 0 then "down" else "stable"⟩) ∧
    (∀ (A : List (String × Option ℚ)) (params : List String) (p : String) (v : ℚ),
      p ∈ params → A.lookup p = some (some v) → v ≠ 0 →
      (Smart.calculate_trends A A params).lookup p = some ⟨v, v, 0, 0, "stable"⟩) := by
  have main : ∀ (cd pd : List (String × Option ℚ)) (params : List String)
      (p : String) (c pv : ℚ),
      p ∈ params → cd.lookup p = some (some c) → pd.lookup p = some (some pv) →
      c ≠ 0 → pv ≠ 0 →
      (Smart.calculate_trends cd pd params).lookup p =
        some ⟨c, pv, c - pv, (c - pv) / pv * 100,
          if c - pv > 0 then "up" else if c - pv < 0 then "down" else "stable"⟩ := by
    intro cd pd params p c pv hp hc hpv hc0 hpv0
    induction params with
    | nil => cases hp
    | cons q rest ih =>
      rw [Smart.calculate_trends]
      by_cases hqp : q = p
      · subst hqp
        unfold Smart.trend_for
        rw [hc, hpv]
        have h1 : numTruthy (some c) = true := by simp [numTruthy, hc0]
        have h2 : numTruthy (some pv) = true := by simp [numTruthy, hpv0]
        simp only [h1, h2, Bool.and_self, if_true, Option.getD_some,
          List.singleton_append, List.lookup, beq_self_eq_true]
        rw [if_pos hpv0]
      · have hp' : p ∈ rest := by
          rcases List.mem_cons.mp hp with h' | h'
          · exact absurd h'.symm hqp
          · exact h'
        rw [lookup_append_of_keys_ne _ _ p
          (fun x hx => by rw [Smart.trend_for_keys cd pd q x hx]; exact hqp)]
        exact ih hp'
  refine ⟨main, fun A params p v hp hv hv0 => ?_⟩
  have h := main A A params p v v hp hv hv hv0 hv0
  simpa using h

/-- Witness for C4: glucose moving from 4 to 5 produces the entry with
delta 5 − 4, percent (5 − 4)/4·100 and direction by sign. -/
theorem c4_witness :
    (Smart.calculate_trends [("Глюкоза", some 5)] [("Глюкоза", some 4)]
        ["Глюкоза"]).lookup "Глюкоза" =
      some ⟨5, 4, 5 - 4, (5 - 4) / 4 * 100,
        if (5:ℚ) - 4 > 0 then "up" else if (5:ℚ) - 4 < 0 then "down" else "stable"⟩ :=
  c4_trend_entry_fields.1 _ _ _ _ 5 4 (by decide) rfl rfl (by decide) (by decide)

/-- Claim C5, counterexample: querying a parameter outside the catalog is
claimed to fail hard with an `UnknownParameterError` and never produce a
default-to-normal or silently absent result.  The code instead returns an
all-`None` sentinel tuple from `get_normal_range` — no exception — and
`create_status_table` renders the unknown parameter's row with status text
`'✅ Норма'`. -/
theorem c5_counterexample :
    Smart.get_normal_range "Витамин D" none = (none, none, none, none, "") ∧
    Smart.create_status_table [("Витамин D", some 50)] ["Витамин D"] none =
      .ok [⟨"Витамин D", 50, none, "✅ Норма"⟩] := ⟨rfl, rfl⟩

/-- Claim C5 (amended): a catalog lookup for an unknown parameter does not
raise: it returns the all-`None` sentinel tuple, classification returns
the `None` ("indeterminate") status as a value in both variants, and the
smart status table then displays such a parameter as `'✅ Норма'` with an
`'N/A'` range — a default-to-normal rendering, not a hard failure. -/
theorem c5_unknown_parameter_sentinel (name : String) (g : Option String) (v : ℚ)
    (h1 : Smart.NORMAL_RANGES.lookup name = none)
    (h2 : BloodApp.NORMAL_RANGES.lookup name = none) :
    Smart.get_normal_range name g = (none, none, none, none, "") ∧
    Smart.check_abnormal (some v) name g = .ok none ∧
    BloodApp.get_normal_range name g = (none, none, "") ∧
    BloodApp.check_abnormal v name g = none ∧
    Smart.create_status_table [(name, some v)] [name] g =
      .ok [⟨name, v, none, "✅ Норма"⟩] := by
  have hg : Smart.get_normal_range name g = (none, none, none, none, "") := by
    unfold Smart.get_normal_range
    rw [h1]
  have hgb : BloodApp.get_normal_range name g = (none, none, "") := by
    unfold BloodApp.get_normal_range
    rw [h2]
  have hc : Smart.check_abnormal (some v) name g = .ok none := by
    unfold Smart.check_abnormal
    rw [hg]
  have hcb : BloodApp.check_abnormal v name g = none := by
    unfold BloodApp.check_abnormal
    rw [hgb]
  refine ⟨hg, hc, hgb, hcb, ?_⟩
  rw [Smart.create_status_table]
  simp only [List.lookup, beq_self_eq_true, hg, hc]
  rfl

/-- Witness for C5: the unknown parameter name `'Витамин C'` produces the
sentinel and default-to-normal behaviour. -/
theorem c5_witness :
    Smart.check_abnormal (some 50) "Витамин C" none = .ok none ∧
    BloodApp.check_abnormal 50 "Витамин C" none = none :=
  ⟨(c5_unknown_parameter_sentinel "Витамин C" none 50 rfl rfl).2.1,
   (c5_unknown_parameter_sentinel "Витамин C" none 50 rfl rfl).2.2.2.1⟩

/-- Claim C6: classifying a gender-specific catalog parameter without a
supplied gender resolves the generic `min`/`max` range (which every
catalog entry carries), and when no range resolves at all the
classification returns the explicit `None` ("indeterminate") pair as a
value — total, never an exception, and distinct from `'normal'`. -/
theorem c6_no_gender_generic_range_and_indeterminate :
    (∀ (name : String) (pd : Smart.ParamDef) (v : ℚ),
      Smart.NORMAL_RANGES.lookup name = some pd → pd.gender_specific = true →
      Smart.get_normal_range name none =
        (some pd.min, some pd.max, pd.critical_low, pd.critical_high, pd.unit) ∧
      Smart.check_abnormal (some v) name none =
        Smart.classifyCore (some v) pd.min (some pd.max) pd.critical_low pd.critical_high) ∧
    (∀ (name : String) (g : Option String) (v : Option ℚ),
      (Smart.get_normal_range name g).1 = none →
      Smart.check_abnormal v name g = .ok none) := by
  constructor
  · intro name pd v hl _hgs
    have hget : Smart.get_normal_range name none =
        (some pd.min, some pd.max, pd.critical_low, pd.critical_high, pd.unit) := by
      unfold Smart.get_normal_range
      rw [hl]
      simp [strTruthy]
    refine ⟨hget, ?_⟩
    unfold Smart.check_abnormal
    rw [hget]
  · intro name g v h
    unfold Smart.check_abnormal
    rcases hget : Smart.get_normal_range name g with ⟨o1, o2, o3, o4, u⟩
    rw [hget] at h
    simp only at h
    subst h
    rfl

/-- Witness for C6: haemoglobin is gender specific; without a gender the
generic 120–160 range is returned, and an unknown name classifies to the
indeterminate `none` value. -/
theorem c6_witness :
    Smart.get_normal_range "Гемоглобин (Hb)" none =
      (some 120, some 160, some 70, some 200, "г/л") ∧
    Smart.check_abnormal (some 50) "Не в каталоге" none = .ok none :=
  ⟨(c6_no_gender_generic_range_and_indeterminate.1 "Гемоглобин (Hb)"
      ⟨120, 160, "г/л", true, some (130, 160), some (120, 150), some 70, some 200⟩ 0
      rfl rfl).1,
   c6_no_gender_generic_range_and_indeterminate.2 "Не в каталоге" none (some 50) rfl⟩

/-- For a known parameter the range tuple always carries the entry's
critical bounds and unit, whatever the gender. -/
theorem Smart.get_normal_range_known (name : String) (pd : Smart.ParamDef)
    (g : Option String) (hl : Smart.NORMAL_RANGES.lookup name = some pd) :
    ∃ mn mx, Smart.get_normal_range name g =
      (some mn, some mx, pd.critical_low, pd.critical_high, pd.unit) := by
  unfold Smart.get_normal_range
  rw [hl]
  dsimp only
  by_cases h1 : (pd.gender_specific && strTruthy g) = true
  · rw [if_pos h1]
    by_cases h2 : (g == some "Мужской") = true
    · rw [if_pos h2]
      exact ⟨_, _, rfl⟩
    · rw [if_neg h2]
      exact ⟨_, _, rfl⟩
  · rw [if_neg h1]
    exact ⟨_, _, rfl⟩

/-- Claim C7: for every catalog parameter and any gender, a value strictly
below the parameter's `critical_low` classifies as the critical tier —
never `abnormal_low` — because the critical comparison is evaluated first
and short-circuits. -/
theorem c7_below_critical_low_is_critical (name : String) (pd : Smart.ParamDef)
    (g : Option String) (v cl : ℚ)
    (hl : Smart.NORMAL_RANGES.lookup name = some pd)
    (hcl : pd.critical_low = some cl) (hv : v < cl) :
    Smart.check_abnormal (some v) name g = .ok (some ("critical", "critical")) := by
  obtain ⟨mn, mx, hget⟩ := Smart.get_normal_range_known name pd g hl
  unfold Smart.check_abnormal
  rw [hget, hcl]
  dsimp only
  unfold Smart.classifyCore
  rw [show pyLt (some v) (some cl) = .ok true by simp [pyLt, hv]]

/-- Witness for C7: haemoglobin 60, below the critical_low of 70,
classifies critical for a male patient. -/
theorem c7_witness :
    Smart.check_abnormal (some 60) "Гемоглобин (Hb)" (some "Мужской") =
      .ok (some ("critical", "critical")) :=
  c7_below_critical_low_is_critical "Гемоглобин (Hb)"
    ⟨120, 160, "г/л", true, some (130, 160), some (120, 150), some 70, some 200⟩
    (some "Мужской") 60 70 rfl rfl (by decide)

/-- A normal range `(r.1, r.2)` is well-placed between critical bounds:
both bounds exist, `critical_low ≤ min ≤ max ≤ critical_high`. -/
def Smart.rangeOK (cl ch : Option ℚ) (r : ℚ × ℚ) : Bool :=
  match cl, ch with
  | some c, some hh => decide (c ≤ r.1) && decide (r.1 ≤ r.2) && decide (r.2 ≤ hh)
  | _, _ => false

/-- Every range a catalog entry can resolve to — generic, male, female — is
well-placed between its critical bounds, and gender-specific entries carry
both gender ranges. -/
def Smart.paramOK (pd : Smart.ParamDef) : Bool :=
  Smart.rangeOK pd.critical_low pd.critical_high (pd.min, pd.max) &&
  (if pd.gender_specific then
    match pd.male, pd.female with
    | some mr, some fr =>
      Smart.rangeOK pd.critical_low pd.critical_high mr &&
        Smart.rangeOK pd.critical_low pd.critical_high fr
    | _, _ => false
  else true)

/-- Every entry of the smart catalog satisfies `paramOK`. -/
theorem Smart.smart_catalog_entries_OK :
    Smart.NORMAL_RANGES.all (fun e => Smart.paramOK e.2) = true := by decide

/-- Unpacking `rangeOK`. -/
theorem Smart.rangeOK_spec (cl ch : Option ℚ) (r : ℚ × ℚ)
    (h : Smart.rangeOK cl ch r = true) :
    ∃ c hh, cl = some c ∧ ch = some hh ∧ c ≤ r.1 ∧ r.1 ≤ r.2 ∧ r.2 ≤ hh := by
  rcases cl with _ | c
  · simp [Smart.rangeOK] at h
  rcases ch with _ | hh
  · simp [Smart.rangeOK] at h
  simp only [Smart.rangeOK, Bool.and_eq_true, decide_eq_true_eq] at h
  exact ⟨c, hh, rfl, rfl, h.1.1, h.1.2, h.2⟩

/-- Whatever gender is supplied, the range resolved by `get_normal_range`
for a catalog entry satisfying `paramOK` is one of the entry's well-placed
ranges. -/
theorem Smart.get_normal_range_rangeOK (name : String) (pd : Smart.ParamDef)
    (g : Option String) (mn mx : ℚ) (cl ch : Option ℚ) (u : String)
    (hOK : Smart.paramOK pd = true)
    (hl : Smart.NORMAL_RANGES.lookup name = some pd)
    (heq : Smart.get_normal_range name g = (some mn, some mx, cl, ch, u)) :
    Smart.rangeOK pd.critical_low pd.critical_high (mn, mx) = true := by
  unfold Smart.paramOK at hOK
  rw [Bool.and_eq_true] at hOK
  obtain ⟨hOK1, hOK2⟩ := hOK
  unfold Smart.get_normal_range at heq
  rw [hl] at heq
  dsimp only at heq
  by_cases h1 : (pd.gender_specific && strTruthy g) = true
  · rw [if_pos h1] at heq
    have hgs : pd.gender_specific = true := by
      rw [Bool.and_eq_true] at h1
      exact h1.1
    rw [if_pos hgs] at hOK2
    rcases hm : pd.male with _ | mr
    · rw [hm] at hOK2
      dsimp only at hOK2
      exact absurd hOK2 (by decide)
    rcases hf : pd.female with _ | fr
    · rw [hm, hf] at hOK2
      dsimp only at hOK2
      exact absurd hOK2 (by decide)
    rw [hm, hf] at hOK2
    dsimp only at hOK2
    rw [Bool.and_eq_true] at hOK2
    by_cases h2 : (g == some "Мужской") = true
    · rw [if_pos h2, hm] at heq
      simp only [Option.getD_some, Prod.mk.injEq, Option.some.injEq] at heq
      obtain ⟨e1, e2, _⟩ := heq
      rw [← e1, ← e2]
      exact hOK2.1
    · rw [if_neg h2, hf] at heq
      simp only [Option.getD_some, Prod.mk.injEq, Option.some.injEq] at heq
      obtain ⟨e1, e2, _⟩ := heq
      rw [← e1, ← e2]
      exact hOK2.2
  · rw [if_neg h1] at heq
    simp only [Prod.mk.injEq, Option.some.injEq] at heq
    obtain ⟨e1, e2, _⟩ := heq
    rw [← e1, ← e2]
    exact hOK1

/-- A value that violates none of the four comparisons classifies normal. -/
theorem Smart.classifyCore_normal (v mn mx c ch : ℚ)
    (h1 : ¬v < c) (h2 : ¬ch < v) (h3 : ¬v < mn) (h4 : ¬mx < v) :
    Smart.classifyCore (some v) mn (some mx) (some c) (some ch) =
      .ok (some ("normal", "normal")) := by
  unfold Smart.classifyCore
  simp only [show pyLt (some v) (some c) = .ok false from by simp [pyLt, h1],
    show pyGt (some v) (some ch) = .ok false from by simp [pyGt, pyLt, h2],
    show pyLt (some v) (some mn) = .ok false from by simp [pyLt, h3],
    show pyGt (some v) (some mx) = .ok false from by simp [pyGt, pyLt, h4]]

/-- A basic-variant range is ordered. -/
def BloodApp.rangeOK (r : ℚ × ℚ) : Bool := decide (r.1 ≤ r.2)

/-- Every range a basic catalog entry can resolve to is ordered, and
gender-specific entries carry both gender ranges. -/
def BloodApp.paramOK (pd : BloodApp.ParamDef) : Bool :=
  BloodApp.rangeOK (pd.min, pd.max) &&
  (if pd.gender_specific then
    match pd.male, pd.female with
    | some mr, some fr => BloodApp.rangeOK mr && BloodApp.rangeOK fr
    | _, _ => false
  else true)

/-- Every entry of the basic catalog satisfies `paramOK`. -/
theorem BloodApp.basic_catalog_entries_OK :
    BloodApp.NORMAL_RANGES.all (fun e => BloodApp.paramOK e.2) = true := by decide

/-- The range resolved by the basic `get_normal_range` for a catalog entry
satisfying `paramOK` is ordered. -/
theorem BloodApp.get_normal_range_le (name : String) (pd : BloodApp.ParamDef)
    (g : Option String) (mn mx : ℚ) (u : String)
    (hOK : BloodApp.paramOK pd = true)
    (hl : BloodApp.NORMAL_RANGES.lookup name = some pd)
    (heq : BloodApp.get_normal_range name g = (some mn, some mx, u)) :
    mn ≤ mx := by
  unfold BloodApp.paramOK at hOK
  rw [Bool.and_eq_true] at hOK
  obtain ⟨hOK1, hOK2⟩ := hOK
  unfold BloodApp.get_normal_range at heq
  rw [hl] at heq
  dsimp only at heq
  by_cases h1 : (pd.gender_specific && strTruthy g) = true
  · rw [if_pos h1] at heq
    have hgs : pd.gender_specific = true := by
      rw [Bool.and_eq_true] at h1
      exact h1.1
    rw [if_pos hgs] at hOK2
    rcases hm : pd.male with _ | mr
    · rw [hm] at hOK2
      dsimp only at hOK2
      exact absurd hOK2 (by decide)
    rcases hf : pd.female with _ | fr
    · rw [hm, hf] at hOK2
      dsimp only at hOK2
      exact absurd hOK2 (by decide)
    rw [hm, hf] at hOK2
    dsimp only at hOK2
    rw [Bool.and_eq_true] at hOK2
    by_cases h2 : (g == some "Мужской") = true
    · rw [if_pos h2, hm] at heq
      simp only [Option.getD_some, Prod.mk.injEq, Option.some.injEq] at heq
      obtain ⟨e1, e2, _⟩ := heq
      rw [← e1, ← e2]
      simpa [BloodApp.rangeOK] using hOK2.1
    · rw [if_neg h2, hf] at heq
      simp only [Option.getD_some, Prod.mk.injEq, Option.some.injEq] at heq
      obtain ⟨e1, e2, _⟩ := heq
      rw [← e1, ← e2]
      simpa [BloodApp.rangeOK] using hOK2.2
  · rw [if_neg h1] at heq
    simp only [Prod.mk.injEq, Option.some.injEq] at heq
    obtain ⟨e1, e2, _⟩ := heq
    rw [← e1, ← e2]
    simpa [BloodApp.rangeOK] using hOK1

/-- Claim C8: in both variants, classifying a value exactly equal to the
effective normal-range minimum or maximum yields normal — range boundaries
are inclusive, and at a boundary the critical comparisons cannot fire
because every catalog range lies between its critical bounds. -/
theorem c8_boundary_values_classify_normal :
    (∀ (name : String) (pd : Smart.ParamDef) (g : Option String) (mn mx : ℚ)
        (cl ch : Option ℚ) (u : String),
      Smart.NORMAL_RANGES.lookup name = some pd →
      Smart.get_normal_range name g = (some mn, some mx, cl, ch, u) →
      Smart.check_abnormal (some mn) name g = .ok (some ("normal", "normal")) ∧
      Smart.check_abnormal (some mx) name g = .ok (some ("normal", "normal"))) ∧
    (∀ (name : String) (pd : BloodApp.ParamDef) (g : Option String) (mn mx : ℚ) (u : String),
      BloodApp.NORMAL_RANGES.lookup name = some pd →
      BloodApp.get_normal_range name g = (some mn, some mx, u) →
      BloodApp.check_abnormal mn name g = some "normal" ∧
      BloodApp.check_abnormal mx name g = some "normal") := by
  constructor
  · intro name pd g mn mx cl ch u hl heq
    have hOK : Smart.paramOK pd = true :=
      List.all_eq_true.mp Smart.smart_catalog_entries_OK (name, pd) (mem_of_lookup_eq_some hl)
    obtain ⟨mn', mx', hget⟩ := Smart.get_normal_range_known name pd g hl
    rw [heq] at hget
    simp only [Prod.mk.injEq, Option.some.injEq] at hget
    obtain ⟨_, _, hcl, hch, _⟩ := hget
    have hrOK := Smart.get_normal_range_rangeOK name pd g mn mx cl ch u hOK hl heq
    obtain ⟨c, hh, hc_eq, hh_eq, i1, i2, i3⟩ := Smart.rangeOK_spec _ _ _ hrOK
    have hcommon : ∀ w : ℚ, ¬w < c → ¬hh < w → ¬w < mn → ¬mx < w →
        Smart.check_abnormal (some w) name g = .ok (some ("normal", "normal")) := by
      intro w w1 w2 w3 w4
      unfold Smart.check_abnormal
      rw [heq]
      dsimp only
      rw [show cl = some c from hcl.symm ▸ hc_eq, show ch = some hh from hch.symm ▸ hh_eq]
      exact Smart.classifyCore_normal w mn mx c hh w1 w2 w3 w4
    exact ⟨hcommon mn (not_lt.mpr i1) (not_lt.mpr (i2.trans i3)) (lt_irrefl mn) (not_lt.mpr i2),
      hcommon mx (not_lt.mpr (i1.trans i2)) (not_lt.mpr i3) (not_lt.mpr i2) (lt_irrefl mx)⟩
  · intro name pd g mn mx u hl heq
    have hOK : BloodApp.paramOK pd = true :=
      List.all_eq_true.mp BloodApp.basic_catalog_entries_OK (name, pd) (mem_of_lookup_eq_some hl)
    have hle := BloodApp.get_normal_range_le name pd g mn mx u hOK hl heq
    constructor
    · unfold BloodApp.check_abnormal
      rw [heq]
      dsimp only
      rw [if_neg (lt_irrefl mn), if_neg (not_lt.mpr hle)]
    · unfold BloodApp.check_abnormal
      rw [heq]
      dsimp only
      rw [if_neg (not_lt.mpr hle), if_neg (lt_irrefl mx)]

/-- Witness for C8: glucose at its boundaries 3.9 and 5.9 is normal in the
smart variant, and at both boundaries in the basic variant. -/
theorem c8_witness :
    Smart.check_abnormal (some (qv 39 10)) "Глюкоза" none = .ok (some ("normal", "normal")) ∧
    BloodApp.check_abnormal (qv 59 10) "Глюкоза" none = some "normal" :=
  ⟨(c8_boundary_values_classify_normal.1 "Глюкоза"
      ⟨qv 39 10, qv 59 10, "ммоль/л", false, none, none, some (qv 5 2), some 25⟩
      none (qv 39 10) (qv 59 10) (some (qv 5 2)) (some 25) "ммоль/л" rfl rfl).1,
   (c8_boundary_values_classify_normal.2 "Глюкоза"
      ⟨qv 39 10, qv 59 10, "ммоль/л", false, none, none⟩
      none (qv 39 10) (qv 59 10) "ммоль/л" rfl rfl).2⟩

/-- Claim C9: when at least one required parameter is missing or
null-valued, validation returns exactly one aggregated error message
listing all the missing names (the `missing_params` list joined with
`', '`), and the warnings component is a function of the result set alone,
independent of the required-parameter list and hence of whether errors are
present. -/
theorem c9_missing_required_single_aggregated_error
    (analysis_data : List (String × Option ℚ)) (selected_params : List String)
    (h : ∃ p ∈ selected_params,
      analysis_data.lookup p = none ∨ analysis_data.lookup p = some none) :
    (Smart.validate_data_quality analysis_data selected_params).1 =
      ["Отсутствуют значения для параметров: " ++
        String.intercalate ", " (Smart.missing_params analysis_data selected_params)] ∧
    (Smart.validate_data_quality analysis_data selected_params).1.length = 1 ∧
    ∀ other_params, (Smart.validate_data_quality analysis_data other_params).2 =
      (Smart.validate_data_quality analysis_data selected_params).2 := by
  have hne : (Smart.missing_params analysis_data selected_params).isEmpty = false := by
    obtain ⟨p, hp, hmiss⟩ := h
    have hmem : p ∈ Smart.missing_params analysis_data selected_params := by
      unfold Smart.missing_params
      rw [List.mem_filter]
      refine ⟨hp, ?_⟩
      rcases hmiss with h' | h' <;> rw [h']
    rcases hl : Smart.missing_params analysis_data selected_params with _ | ⟨a, l⟩
    · rw [hl] at hmem
      cases hmem
    · rfl
  have herr : (Smart.validate_data_quality analysis_data selected_params).1 =
      ["Отсутствуют значения для параметров: " ++
        String.intercalate ", " (Smart.missing_params analysis_data selected_params)] := by
    unfold Smart.validate_data_quality
    dsimp only
    rw [hne]
    rfl
  refine ⟨herr, by rw [herr]; rfl, fun other_params => rfl⟩

/-- Witness for C9: a result set missing the single required parameter
`'Глюкоза'` yields exactly one aggregated error. -/
theorem c9_witness :
    (Smart.validate_data_quality [] ["Глюкоза"]).1 =
      ["Отсутствуют значения для параметров: " ++
        String.intercalate ", " (Smart.missing_params [] ["Глюкоза"])] ∧
    (Smart.validate_data_quality [] ["Глюкоза"]).1.length = 1 :=
  ⟨(c9_missing_required_single_aggregated_error [] ["Глюкоза"]
      ⟨"Глюкоза", by decide, Or.inl rfl⟩).1,
   (c9_missing_required_single_aggregated_error [] ["Глюкоза"]
      ⟨"Глюкоза", by decide, Or.inl rfl⟩).2.1⟩

/-- Every match returned by the rule loop comes from `evalRule` on one of
the rules. -/
theorem Smart.detect_go_mem (data : List (String × Option ℚ)) (g : Option String)
    (rules : List (String × Smart.PatternInfo)) (ms : List Smart.DetectedPattern)
    (m : Smart.DetectedPattern)
    (hdet : Smart.detect_go data g rules = .ok ms) (hm : m ∈ ms) :
    ∃ r ∈ rules, Smart.evalRule data g r = .ok (some m) := by
  induction rules generalizing ms with
  | nil =>
    rw [Smart.detect_go] at hdet
    cases hdet
    cases hm
  | cons r rest ih =>
    rw [Smart.detect_go] at hdet
    rcases he : Smart.evalRule data g r with e | m?
    · rw [he] at hdet
      cases hdet
    · rw [he] at hdet
      rcases hd : Smart.detect_go data g rest with e | ms'
      · rw [hd] at hdet
        cases hdet
      · rw [hd] at hdet
        cases m? with
        | none =>
          cases hdet
          obtain ⟨r', hr', he'⟩ := ih ms' hd hm
          exact ⟨r', List.mem_cons_of_mem _ hr', he'⟩
        | some m0 =>
          cases hdet
          rcases List.mem_cons.mp hm with hm0 | hm'
          · subst hm0
            exact ⟨r, List.mem_cons_self _ _, he⟩
          · obtain ⟨r', hr', he'⟩ := ih ms' hd hm'
            exact ⟨r', List.mem_cons_of_mem _ hr', he'⟩

/-- What a successful `evalRule` match guarantees: the emitted pattern is
named after the rule, carries the statuses the rule computed, and those
statuses satisfied the rule's predicate. -/
theorem Smart.evalRule_ok_some (data : List (String × Option ℚ)) (g : Option String)
    (n : String) (i : Smart.PatternInfo) (m : Smart.DetectedPattern)
    (h : Smart.evalRule data g (n, i) = .ok (some m)) :
    m.name = n ∧ Smart.ruleStatuses data g i.indicators = .ok m.statuses ∧
      Smart.ruleMatch i.pattern m.statuses = true := by
  unfold Smart.evalRule at h
  by_cases hp : (i.indicators.all (fun ind => (data.lookup ind).isSome)) = true
  · rw [if_pos hp] at h
    rcases hs : Smart.ruleStatuses data g i.indicators with e | sts
    · rw [hs] at h
      cases h
    · rw [hs] at h
      dsimp only at h
      by_cases hmt : Smart.ruleMatch i.pattern sts = true
      · rw [if_pos hmt] at h
        simp only [Except.ok.injEq, Option.some.injEq] at h
        subst h
        exact ⟨rfl, rfl, hmt⟩
      · rw [if_neg hmt] at h
        cases h
  · rw [if_neg hp] at h
    cases h

/-- A present indicator's status — the first component of its
`check_abnormal` result — is among the statuses computed for a rule that
contains it. -/
theorem Smart.ruleStatuses_mem (data : List (String × Option ℚ)) (g : Option String)
    (inds : List String) (sts : List (String × Option String))
    (ind : String) (v : Option ℚ) (r : Option (String × String))
    (hs : Smart.ruleStatuses data g inds = .ok sts)
    (hind : ind ∈ inds) (hv : data.lookup ind = some v)
    (hc : Smart.check_abnormal v ind g = .ok r) :
    (ind, r.map Prod.fst) ∈ sts := by
  induction inds generalizing sts with
  | nil => cases hind
  | cons i rest ih =>
    rw [Smart.ruleStatuses] at hs
    rcases hci : Smart.check_abnormal ((data.lookup i).getD none) i g with e | ri
    · rw [hci] at hs
      cases hs
    · rw [hci] at hs
      rcases hrest : Smart.ruleStatuses data g rest with e | tl
      · rw [hrest] at hs
        cases hs
      · rw [hrest] at hs
        cases hs
        rcases List.mem_cons.mp hind with hii | hii
        · subst hii
          rw [hv] at hci
          simp only [Option.getD_some] at hci
          rw [hc] at hci
          simp only [Except.ok.injEq] at hci
          subst hci
          exact List.mem_cons_self _ _
        · exact List.mem_cons_of_mem _ (ih tl hrest hii)

/-- An `all_low` match demands the `'low'` status of every indicator. -/
theorem Smart.ruleMatch_all_low (sts : List (String × Option String))
    (h : Smart.ruleMatch "all_low" sts = true) :
    ∀ e ∈ sts, e.2 = some "low" := by
  intro e he
  have h' : sts.all (fun s => s.2 == some "low") = true := h
  have := List.all_eq_true.mp h' e he
  simpa using this

/-- The five pattern rules have pairwise distinct names. -/
theorem Smart.CP_keys_pairwise :
    Smart.CORRELATION_PATTERNS.Pairwise (fun a b => a.1 ≠ b.1) := by decide

/-- Claim C10: an `all_low` correlation rule (such as the anaemia rule)
never matches when one of its indicators classifies as the critical tier —
in particular when that indicator's value is critically low — because the
critical tier replaces `'low'` and the `all_low` predicate then fails. -/
theorem c10_all_low_rule_never_matches_critical
    (data : List (String × Option ℚ)) (g : Option String)
    (name : String) (info : Smart.PatternInfo) (ind : String) (v : Option ℚ)
    (hrule : (name, info) ∈ Smart.CORRELATION_PATTERNS)
    (hpat : info.pattern = "all_low")
    (hind : ind ∈ info.indicators)
    (hval : data.lookup ind = some v)
    (hcrit : Smart.check_abnormal v ind g = .ok (some ("critical", "critical")))
    (ms : List Smart.DetectedPattern)
    (hdet : Smart.detect_patterns data g = .ok ms) :
    ∀ m ∈ ms, m.name ≠ name := by
  intro m hm hname
  obtain ⟨r, hrmem, hrev⟩ := Smart.detect_go_mem data g _ ms m hdet hm
  obtain ⟨rn, ri⟩ := r
  obtain ⟨hmn, hsts, hmatch⟩ := Smart.evalRule_ok_some data g rn ri m hrev
  have hrn : rn = name := by rw [← hmn, hname]
  subst hrn
  have hinfo : ri = info := keys_unique Smart.CP_keys_pairwise hrmem hrule
  subst hinfo
  have hmem := Smart.ruleStatuses_mem data g ri.indicators m.statuses ind v
    (some ("critical", "critical")) hsts hind hval hcrit
  rw [hpat] at hmatch
  have := Smart.ruleMatch_all_low m.statuses hmatch _ hmem
  simp at this

/-- Witness for C10: with haemoglobin critically low (60 < 70) and the
other anaemia indicators merely low, detection returns only the diabetes
match; the theorem applied to this run shows that match is not the
anaemia rule. -/
theorem c10_witness :
    (⟨"Сахарный диабет", "high", ["Глюкоза"], [("Глюкоза", some 7)],
      [("Глюкоза", some "high")]⟩ : Smart.DetectedPattern).name ≠ "Анемия" :=
  c10_all_low_rule_never_matches_critical
    [("Гемоглобин (Hb)", some 60), ("Эритроциты (RBC)", some 3),
     ("Гематокрит (HCT)", some 30), ("Глюкоза", some 7)] none
    "Анемия" ⟨["Гемоглобин (Hb)", "Эритроциты (RBC)", "Гематокрит (HCT)"], "all_low", "high"⟩
    "Гемоглобин (Hb)" (some 60)
    (by decide) rfl (by decide) rfl rfl
    [⟨"Сахарный диабет", "high", ["Глюкоза"], [("Глюкоза", some 7)],
      [("Глюкоза", some "high")]⟩]
    rfl
    ⟨"Сахарный диабет", "high", ["Глюкоза"], [("Глюкоза", some 7)],
      [("Глюкоза", some "high")]⟩
    (by decide)
